import Mathlib

/-!
Shallow embedding of the catalog/cart orchestration layer of the storefront
repository: the Catalog/Cart Gateway (`src/lib/ecom/api.ts`), the Cart Cache &
Mutation Coordinator hooks (`src/lib/ecom/hooks.ts`) and the product-details
selection state logic (`src/unnamed/part_001`, `useProductDetails`).

Remote platform calls are modelled by parameters: each Gateway operation takes
the outcome of the underlying platform call(s) as an `Except String β` value
(`Except.error msg` standing for a platform call that rejected/threw with that
message).  A Gateway operation's own result type is
`Except EcomError (ApiResponse α)`: `Except.ok` is a value returned across the
interface boundary (the tagged result), while `Except.error` models an
exception thrown across the boundary.
-/

namespace Ecom

/-- Error codes of `EcomApiErrorCodes` used in `src/lib/ecom/api.ts`. -/
inductive EcomApiErrorCodes where
  | GetProductsFailure
  | GetProductFailure
  | ProductNotFound
  | CategoryNotFound
  | GetCategoryFailure
  | GetCartFailure
  | GetCartTotalsFailure
  | UpdateCartItemQuantityFailure
  | RemoveCartItemFailure
  | AddCartItemFailure
  | CreateCheckoutFailure
  | CreateCheckoutRedirectSessionFailure
  | GetAllCategoriesFailure
  | OrderNotFound
  | GetOrderFailure
  deriving DecidableEq

/-- The `{code, message}` error payload of a failure response. -/
structure EcomError where
  code : EcomApiErrorCodes
  message : String
  deriving DecidableEq

/-- The tagged result of a Gateway operation:
`{status: 'success', body}` or `{status: 'failure', error}`. -/
inductive ApiResponse (α : Type) where
  | success (body : α)
  | failure (error : EcomError)
  deriving DecidableEq

/-- `successResponse` from `src/lib/ecom/api.ts`. -/
def successResponse {α : Type} (body : α) : ApiResponse α :=
  ApiResponse.success body

/-- `failureResponse` from `src/lib/ecom/api.ts`. -/
def failureResponse {α : Type} (code : EcomApiErrorCodes) (message : String) :
    ApiResponse α :=
  ApiResponse.failure ⟨code, message⟩

/-- A product option choice (`products.Choice`). -/
structure Choice where
  description : String
  deriving DecidableEq

/-- A product option: optional name and optional choice list
(`products.ProductOption`). -/
structure ProductOption where
  name : Option String
  choices : Option (List Choice)
  deriving DecidableEq

/-- Price data attached to a product; the price itself may be absent. -/
structure PriceData where
  price : Option Int
  deriving DecidableEq

/-- The slice of `products.Product` the embedded logic reads. -/
structure Product where
  catalogId : String
  productOptions : Option (List ProductOption)
  manageVariants : Option Bool
  priceData : Option PriceData
  deriving DecidableEq

/-- A category (`CollectionDetails`); `slug` is read through the `!`
non-null assertion in the source, so it is modelled as present. -/
structure CollectionDetails where
  slug : String
  deriving DecidableEq

/-- The `{items, totalCount}` page returned by `getProductsByCategory`. -/
structure ProductsPage where
  items : List Product
  totalCount : Nat
  deriving DecidableEq

/-- The `{category, items}` body returned by `getFeaturedProducts`. -/
structure FeaturedProducts where
  category : CollectionDetails
  items : List Product
  deriving DecidableEq

/-- The `options` argument of an add-to-cart call (`AddToCartOptions`):
either a variant id (variant-managed product) or the list of chosen
option name/value pairs (option-managed product). -/
inductive AddToCartOptions where
  | variant (variantId : String)
  | choices (options : List (String × String))
  deriving DecidableEq

/-- A cart line item: the fields of the platform line item the embedded
logic reads (`_id`, `quantity`, and the catalog reference's item id and
options). -/
structure LineItem where
  lineItemId : Option String
  quantity : Option Nat
  catalogItemId : Option String
  catalogOptions : Option AddToCartOptions
  deriving DecidableEq

/-- The current cart: its line items. -/
structure Cart where
  lineItems : List LineItem
  deriving DecidableEq

/-- Estimated cart totals (opaque to the embedded logic). -/
structure CartTotals where
  total : Int
  deriving DecidableEq

/-- The `{cart}` result of a platform cart mutation; `cart` may be absent. -/
structure CartResult where
  cart : Option Cart
  deriving DecidableEq

/-- A redirect session returned by the platform; `fullUrl` may be absent. -/
structure RedirectSession where
  fullUrl : Option String
  deriving DecidableEq

/-- The `{checkoutUrl}` body of a successful `checkout`. -/
structure CheckoutResult where
  checkoutUrl : String
  deriving DecidableEq

/-- The `{lowest, highest}` body of `getProductPriceBounds`. -/
structure PriceBounds where
  lowest : Int
  highest : Int
  deriving DecidableEq

/-- `getProducts` from `src/lib/ecom/api.ts`: wraps the platform query in
try/catch and returns a tagged result. -/
def getProducts (platform : Except String (List Product)) :
    Except EcomError (ApiResponse (List Product)) :=
  Except.ok (match platform with
    | Except.ok items => successResponse items
    | Except.error e => failureResponse EcomApiErrorCodes.GetProductsFailure e)

/-- `getCart` from `src/lib/ecom/api.ts`. -/
def getCart (platform : Except String Cart) :
    Except EcomError (ApiResponse Cart) :=
  Except.ok (match platform with
    | Except.ok currentCart => successResponse currentCart
    | Except.error e => failureResponse EcomApiErrorCodes.GetCartFailure e)

/-- `getCartTotals` from `src/lib/ecom/api.ts`. -/
def getCartTotals (platform : Except String CartTotals) :
    Except EcomError (ApiResponse CartTotals) :=
  Except.ok (match platform with
    | Except.ok cartTotals => successResponse cartTotals
    | Except.error e => failureResponse EcomApiErrorCodes.GetCartTotalsFailure e)

/-- A platform error, as inspected by `isEcomSDKError` in the source: either
an SDK error carrying `details.applicationError.code`, or anything else. -/
inductive PlatformError where
  | sdk (applicationErrorCode : Int) (message : String)
  | other (message : String)
  deriving DecidableEq

/-- `getErrorMessage` applied to a platform error. -/
def getErrorMessage : PlatformError → String
  | PlatformError.sdk _ m => m
  | PlatformError.other m => m

/-- `getCategoryBySlug` from `src/lib/ecom/api.ts`: a missing collection or a
404 SDK error becomes `CategoryNotFound`; other errors become
`GetCategoryFailure`. -/
def getCategoryBySlug
    (platform : Except PlatformError (Option CollectionDetails))
    (_slug : String) : Except EcomError (ApiResponse CollectionDetails) :=
  Except.ok (match platform with
    | Except.ok (some category) => successResponse category
    | Except.ok none =>
        failureResponse EcomApiErrorCodes.CategoryNotFound "Category not found"
    | Except.error (PlatformError.sdk code m) =>
        if code = 404 then
          failureResponse EcomApiErrorCodes.CategoryNotFound "Category not found"
        else
          failureResponse EcomApiErrorCodes.GetCategoryFailure m
    | Except.error (PlatformError.other m) =>
        failureResponse EcomApiErrorCodes.GetCategoryFailure m)

/-- The platform query result `{items, totalCount}` destructured by
`getProductsByCategory` with `totalCount = 0` as default. -/
structure QueryPage where
  items : List Product
  totalCount : Option Nat
  deriving DecidableEq

/-- `getProductsByCategory` from `src/lib/ecom/api.ts`: the category lookup
(`throw new Error('Category not found')` when absent) and the filtered/sorted
paged query run inside one try/catch whose catch returns
`GetProductsFailure`. -/
def getProductsByCategory
    (categoryRes : Except String (Option CollectionDetails))
    (queryRes : Except String QueryPage) (_categorySlug : String) :
    Except EcomError (ApiResponse ProductsPage) :=
  Except.ok (match categoryRes with
    | Except.error e => failureResponse EcomApiErrorCodes.GetProductsFailure e
    | Except.ok none =>
        failureResponse EcomApiErrorCodes.GetProductsFailure "Category not found"
    | Except.ok (some _category) =>
        match queryRes with
        | Except.error e =>
            failureResponse EcomApiErrorCodes.GetProductsFailure e
        | Except.ok page =>
            successResponse
              { items := page.items, totalCount := page.totalCount.getD 0 })

/-- `getPromotedProducts` from `src/lib/ecom/api.ts` (limit-4 query). -/
def getPromotedProducts (platform : Except String (List Product)) :
    Except EcomError (ApiResponse (List Product)) :=
  Except.ok (match platform with
    | Except.ok items => successResponse items
    | Except.error e => failureResponse EcomApiErrorCodes.GetProductsFailure e)

/-- `getProductBySlug` from `src/lib/ecom/api.ts`: reads `items[0]` of the
limit-1 slug query; `ProductNotFound` when it is `undefined`,
`GetProductFailure` on a platform rejection. -/
def getProductBySlug (platform : Except String (List Product))
    (_slug : String) : Except EcomError (ApiResponse Product) :=
  Except.ok (match platform with
    | Except.error e => failureResponse EcomApiErrorCodes.GetProductFailure e
    | Except.ok items =>
        match items.head? with
        | none => failureResponse EcomApiErrorCodes.ProductNotFound
            "Product not found"
        | some product => successResponse product)

/-- `getAllCategories` from `src/lib/ecom/api.ts`. -/
def getAllCategories (platform : Except String (List CollectionDetails)) :
    Except EcomError (ApiResponse (List CollectionDetails)) :=
  Except.ok (match platform with
    | Except.ok categories => successResponse categories
    | Except.error e =>
        failureResponse EcomApiErrorCodes.GetAllCategoriesFailure e)

/-- An order, opaque to the embedded logic. -/
structure Order where
  orderId : String
  deriving DecidableEq

/-- `getOrder` from `src/lib/ecom/api.ts`: a missing order or a 404 SDK error
becomes `OrderNotFound`; other errors become `GetOrderFailure`. -/
def getOrder (platform : Except PlatformError (Option Order)) (_id : String) :
    Except EcomError (ApiResponse Order) :=
  Except.ok (match platform with
    | Except.ok (some order) => successResponse order
    | Except.ok none =>
        failureResponse EcomApiErrorCodes.OrderNotFound "Order not found"
    | Except.error (PlatformError.sdk code m) =>
        if code = 404 then
          failureResponse EcomApiErrorCodes.OrderNotFound "Order not found"
        else
          failureResponse EcomApiErrorCodes.GetOrderFailure m
    | Except.error (PlatformError.other m) =>
        failureResponse EcomApiErrorCodes.GetOrderFailure m)

/-- `updateCartItemQuantity` from `src/lib/ecom/api.ts`: a platform rejection
or a result without a cart becomes `UpdateCartItemQuantityFailure`. -/
def updateCartItemQuantity (platform : Except String CartResult)
    (_id : Option String) (_quantity : Nat) :
    Except EcomError (ApiResponse Cart) :=
  Except.ok (match platform with
    | Except.error e =>
        failureResponse EcomApiErrorCodes.UpdateCartItemQuantityFailure e
    | Except.ok result =>
        match result.cart with
        | none => failureResponse EcomApiErrorCodes.UpdateCartItemQuantityFailure
            "Failed to update cart item quantity"
        | some cart => successResponse cart)

/-- `removeItemFromCart` from `src/lib/ecom/api.ts`. -/
def removeItemFromCart (platform : Except String CartResult)
    (_id : String) : Except EcomError (ApiResponse Cart) :=
  Except.ok (match platform with
    | Except.error e =>
        failureResponse EcomApiErrorCodes.RemoveCartItemFailure e
    | Except.ok result =>
        match result.cart with
        | none => failureResponse EcomApiErrorCodes.RemoveCartItemFailure
            "Failed to remove cart item"
        | some cart => successResponse cart)

/-- `addToCart` from `src/lib/ecom/api.ts`. -/
def addToCart (platform : Except String CartResult)
    (_id : String) (_quantity : Nat) (_options : Option AddToCartOptions) :
    Except EcomError (ApiResponse Cart) :=
  Except.ok (match platform with
    | Except.error e =>
        failureResponse EcomApiErrorCodes.AddCartItemFailure e
    | Except.ok result =>
        match result.cart with
        | none => failureResponse EcomApiErrorCodes.AddCartItemFailure
            "Failed to add item to cart"
        | some cart => successResponse cart)

/-- `redirectSession?.fullUrl` as read by `checkout`: the optional chain
flattened. -/
def optFullUrl (redirectSession : Option RedirectSession) : Option String :=
  redirectSession.bind RedirectSession.fullUrl

/-- `checkout` from `src/lib/ecom/api.ts`: phase one creates the checkout
(`CreateCheckoutFailure` on rejection); phase two creates the redirect
session (`CreateCheckoutRedirectSessionFailure` on rejection or when
`redirectSession?.fullUrl` is falsy, i.e. absent or the empty string). -/
def checkout (createRes : Except String (Option String))
    (redirectRes : Except String (Option RedirectSession)) :
    Except EcomError (ApiResponse CheckoutResult) :=
  match createRes with
  | Except.error e =>
      Except.ok (failureResponse EcomApiErrorCodes.CreateCheckoutFailure e)
  | Except.ok _checkoutId =>
      Except.ok (match redirectRes with
        | Except.error e =>
            failureResponse EcomApiErrorCodes.CreateCheckoutRedirectSessionFailure e
        | Except.ok redirectSession =>
            match optFullUrl redirectSession with
            | none => failureResponse
                EcomApiErrorCodes.CreateCheckoutRedirectSessionFailure
                "Missing redirect session url"
            | some url =>
                if url = "" then
                  failureResponse
                    EcomApiErrorCodes.CreateCheckoutRedirectSessionFailure
                    "Missing redirect session url"
                else successResponse ⟨url⟩)

/-- The tail of `getFeaturedProducts` after a category has been resolved:
fetch the category's products (`getProductsByCategory` with `limit := count`)
and throw its error on failure (`throw productsResponse.error`). -/
def getFeaturedProductsRest
    (prodsByCat : String → Nat → ApiResponse ProductsPage)
    (category : CollectionDetails) (count : Nat) :
    Except EcomError (ApiResponse FeaturedProducts) :=
  match prodsByCat category.slug count with
  | ApiResponse.failure e => Except.error e
  | ApiResponse.success page =>
      Except.ok (successResponse { category := category, items := page.items })

/-- `getFeaturedProducts` from `src/lib/ecom/api.ts`: resolves the requested
category; on a `CategoryNotFound` failure it retries with the
`all-products` slug, and when that lookup also fails it throws the
ORIGINAL error (`throw error`); a non-`CategoryNotFound` failure is thrown
directly. -/
def getFeaturedProducts
    (catBySlug : String → ApiResponse CollectionDetails)
    (prodsByCat : String → Nat → ApiResponse ProductsPage)
    (categorySlug : String) (count : Nat) :
    Except EcomError (ApiResponse FeaturedProducts) :=
  match catBySlug categorySlug with
  | ApiResponse.success category =>
      getFeaturedProductsRest prodsByCat category count
  | ApiResponse.failure error =>
      if error.code = EcomApiErrorCodes.CategoryNotFound then
        match catBySlug "all-products" with
        | ApiResponse.success category =>
            getFeaturedProductsRest prodsByCat category count
        | ApiResponse.failure _ => Except.error error
      else Except.error error

/-- Sort direction of a platform product query (`ascending('price')` /
`descending('price')`). -/
inductive SortDir where
  | ascending
  | descending
  deriving DecidableEq

/-- `getProductPriceBounds` from `src/lib/ecom/api.ts`: after the category
lookup it issues two queries — ascending and descending by price, each with
limit 1 — and reads `items[0]?.priceData?.price ?? 0` of each. The platform
query is the parameter `find`, taking the sort direction and the limit. -/
def getProductPriceBounds
    (categoryRes : Except String (Option CollectionDetails))
    (find : SortDir → Nat → List Product) :
    Except EcomError (ApiResponse PriceBounds) :=
  Except.ok (match categoryRes with
    | Except.error e => failureResponse EcomApiErrorCodes.GetProductsFailure e
    | Except.ok none =>
        failureResponse EcomApiErrorCodes.GetProductsFailure "Category not found"
    | Except.ok (some _category) =>
        let ascendingPrice := find SortDir.ascending 1
        let descendingPrice := find SortDir.descending 1
        let lowest :=
          ((ascendingPrice.head?.bind Product.priceData).bind PriceData.price).getD 0
        let highest :=
          ((descendingPrice.head?.bind Product.priceData).bind PriceData.price).getD 0
        successResponse { lowest := lowest, highest := highest })

/-- Set equality of two choice lists, as lists without regard to order:
used by the spec's "full set of option choices is equal" matching clause. -/
def sameChoiceSet (a b : List (String × String)) : Bool :=
  a.all (fun c => b.contains c) && b.all (fun c => a.contains c)

/-- Modelled from the spec: `findItemIdInCart` lives in `~/lib/utils`, which is
not among the repository sources; §4.2 gives its matching rule — "a cart
LineItem matches a candidate add iff catalog item id is equal AND (variantId
equal, when variant-managed) OR (the full set of option choices is equal,
when option-managed)". -/
def lineItemMatches (li : LineItem) (id : String)
    (options : Option AddToCartOptions) : Bool :=
  li.catalogItemId == some id &&
    match li.catalogOptions, options with
    | some (AddToCartOptions.variant v1), some (AddToCartOptions.variant v2) =>
        v1 == v2
    | some (AddToCartOptions.choices o1), some (AddToCartOptions.choices o2) =>
        sameChoiceSet o1 o2
    | none, none => true
    | _, _ => false

/-- Modelled from the spec: `findItemIdInCart` (see `lineItemMatches`) returns
the first cart line item matching the candidate add, if any. -/
def findItemIdInCart (cart : Cart) (id : String)
    (options : Option AddToCartOptions) : Option LineItem :=
  cart.lineItems.find? (fun li => lineItemMatches li id options)

/-- The Gateway call the add-to-cart coordinator decides to issue. -/
inductive CartAction where
  | updateQuantity (id : Option String) (quantity : Nat)
  | insert (id : String) (quantity : Nat) (options : Option AddToCartOptions)
  deriving DecidableEq

/-- The mutation function of `useAddToCart` in `src/lib/ecom/hooks.ts`: look
the candidate up in the cached cart with `findItemIdInCart`; when found,
issue an update-quantity call with `(itemInCart.quantity ?? 0) +
arg.quantity`; otherwise issue an insert call with the requested quantity. -/
def addToCartMutation (cart : Option Cart) (id : String) (quantity : Nat)
    (options : Option AddToCartOptions) : CartAction :=
  let itemInCart := match cart with
    | some c => findItemIdInCart c id options
    | none => none
  match itemInCart with
  | some item =>
      CartAction.updateQuantity item.lineItemId (item.quantity.getD 0 + quantity)
  | none => CartAction.insert id quantity options

/-- Modelled from the spec: the remote platform's application of the issued
call is outside the repository; §4.3 makes the server's returned cart
authoritative, with an update-quantity call setting the identified line
item's quantity and an insert appending a fresh line item. -/
def applyCartAction (c : Cart) (freshId : String) : CartAction → Cart
  | CartAction.updateQuantity id q =>
      ⟨c.lineItems.map (fun li =>
        if li.lineItemId == id then { li with quantity := some q } else li)⟩
  | CartAction.insert cid q opts =>
      ⟨c.lineItems ++ [{ lineItemId := some freshId, quantity := some q,
                         catalogItemId := some cid, catalogOptions := opts }]⟩

/-- One full add-to-cart round trip: the coordinator's decision applied by the
(spec-modelled) platform, whose returned cart repopulates the cache. -/
def addToCartFlow (c : Cart) (freshId : String) (id : String) (quantity : Nat)
    (options : Option AddToCartOptions) : Cart :=
  applyCartAction c freshId (addToCartMutation (some c) id quantity options)

/-- `setUpdatingCartItems((prev) => [...prev, id])` in `useCart`
(`src/lib/ecom/hooks.ts`): run before the update/remove trigger is issued. -/
def markItemUpdating (prev : List String) (id : String) : List String :=
  prev ++ [id]

/-- `setUpdatingCartItems((prev) => prev.filter((itemId) => itemId !== id))`
in `useCart`: run in the `.finally` of the update/remove trigger. -/
def unmarkItemUpdating (prev : List String) (id : String) : List String :=
  prev.filter (fun itemId => itemId ≠ id)

/-- The busy-set lifecycle of `updateItemQuantity` / `removeItem` in
`useCart`: the id is appended before the Gateway call is issued and filtered
out when the mutation settles; `during` abstracts whatever other busy-set
updates interleave while the mutation is in flight. The first component is
the busy set at the moment the call is issued, the second the busy set after
the `.finally` handler has run. -/
def busyLifecycle (prev : List String) (id : String)
    (during : List String → List String) : List String × List String :=
  let atIssue := markItemUpdating prev id
  let atSettle := unmarkItemUpdating (during atIssue) id
  (atIssue, atSettle)

/-- The selection map of `useProductDetails` (`src/unnamed/part_001`):
`Record<string, products.Choice | undefined>` kept as an association list so
that key presence is observable; the inner `none` is an `undefined` entry. -/
abbrev ChoiceMap := List (String × Option Choice)

/-- Reading a key of the selection map: outer `none` means no entry. -/
def lookupKey (m : ChoiceMap) (k : String) : Option (Option Choice) :=
  (m.find? (fun p => p.1 == k)).map Prod.snd

/-- The object-spread update `{...prev, [optionName]: newChoice}`: replace the
entry in place when the key is present, append it otherwise. -/
def setKey : ChoiceMap → String → Option Choice → ChoiceMap
  | [], k, v => [(k, v)]
  | p :: t, k, v => if p.1 = k then (k, v) :: t else p :: setKey t k v

/-- The body of the `getInitialSelectedChoices` loop (`src/unnamed/part_001`):
`if (option.name) result[option.name] = option?.choices?.length === 1 ?
option.choices[0] : undefined`.  The guard `if (option.name)` is a JS
truthiness check, so an absent name AND the empty-string name are both
skipped. -/
def initStep (result : ChoiceMap) (option : ProductOption) : ChoiceMap :=
  match option.name with
  | none => result
  | some name =>
      if name = "" then result
      else
        setKey result name
          (if (option.choices.getD []).length = 1
           then (option.choices.getD []).head?
           else none)

/-- `getInitialSelectedChoices` from `useProductDetails`
(`src/unnamed/part_001`). -/
def getInitialSelectedChoices (product : Product) : ChoiceMap :=
  (product.productOptions.getD []).foldl initStep []

/-- The local state of `useProductDetails` the embedded handlers touch. -/
structure DetailsState where
  selectedChoices : ChoiceMap
  quantity : Nat
  addToCartAttempted : Bool
  deriving DecidableEq

/-- The add/update request `handleAddToCart` hands to the cart coordinator. -/
structure CartRequest where
  id : String
  quantity : Nat
  options : AddToCartOptions
  deriving DecidableEq

/-- `handleAddToCart` from `useProductDetails` (`src/unnamed/part_001`): set
the attempted flag; when any selection value is `undefined`
(`Object.values(selectedChoices).includes(undefined)`) return without a
Gateway call; otherwise issue the add-to-cart request.  `computeOptions`
stands for the payload computation via `getSelectedVariant` /
`selectedChoicesToVariantChoices` (in `~/lib/utils`, outside the repository
sources), which the guarded branch does not reach. -/
def handleAddToCart (computeOptions : Product → ChoiceMap → AddToCartOptions)
    (product : Product) (st : DetailsState) :
    DetailsState × Option CartRequest :=
  let st' := { st with addToCartAttempted := true }
  if st'.selectedChoices.any (fun p => p.2.isNone) then (st', none)
  else
    (st', some { id := product.catalogId, quantity := st.quantity,
                 options := computeOptions product st.selectedChoices })

/-- `handleOptionChange` from `useProductDetails` (`src/unnamed/part_001`):
`setQuantity(1)` then `setSelectedChoices((prev) => ({...prev,
[optionName]: newChoice}))`. -/
def handleOptionChange (st : DetailsState) (optionName : String)
    (newChoice : Choice) : DetailsState :=
  { st with
    quantity := 1
    selectedChoices := setKey st.selectedChoices optionName (some newChoice) }

/-- Modelled from the spec: the remote platform's price-ordered product query
(`query.ascending('price')` / `query.descending('price')` with a limit) is
outside the repository; it is modelled as an insertion sort on the price key
followed by `take limit`. -/
def priceKey (p : Product) : Int :=
  ((p.priceData.bind PriceData.price)).getD 0

/-- Insertion into a price-sorted list under the comparison `le`. -/
def insertByPrice (le : Product → Product → Bool) (p : Product) :
    List Product → List Product
  | [] => [p]
  | q :: t => if le p q then p :: q :: t else q :: insertByPrice le p t

/-- Insertion sort of products under the comparison `le`. -/
def sortByPrice (le : Product → Product → Bool) (l : List Product) :
    List Product :=
  l.foldr (insertByPrice le) []

/-- Modelled from the spec: the platform's response to the two price-bound
queries over a category's product list. -/
def platformPriceQuery (prods : List Product) :
    SortDir → Nat → List Product
  | SortDir.ascending, limit =>
      (sortByPrice (fun a b => priceKey a ≤ priceKey b) prods).take limit
  | SortDir.descending, limit =>
      (sortByPrice (fun a b => priceKey b ≤ priceKey a) prods).take limit

/-- Option names of a product, in declaration order. -/
def optionNames (product : Product) : List String :=
  (product.productOptions.getD []).filterMap ProductOption.name

theorem lookupKey_cons (q : String × Option Choice) (t : ChoiceMap)
    (k : String) :
    lookupKey (q :: t) k = if q.1 = k then some q.2 else lookupKey t k := by
  by_cases h : q.1 = k
  · rw [if_pos h]
    simp [lookupKey, List.find?, h]
  · rw [if_neg h]
    simp [lookupKey, List.find?, beq_eq_false_iff_ne.mpr h]

theorem lookupKey_setKey_self (m : ChoiceMap) (k : String) (v : Option Choice) :
    lookupKey (setKey m k v) k = some v := by
  induction m with
  | nil => simp [setKey, lookupKey_cons]
  | cons p t ih =>
    by_cases h : p.1 = k
    · simp [setKey, h, lookupKey_cons]
    · simp [setKey, h, lookupKey_cons, ih]

theorem lookupKey_setKey_other (m : ChoiceMap) (k k' : String)
    (v : Option Choice) (h : k' ≠ k) :
    lookupKey (setKey m k v) k' = lookupKey m k' := by
  induction m with
  | nil =>
    simp only [setKey]
    rw [lookupKey_cons, if_neg (Ne.symm h)]
  | cons p t ih =>
    by_cases hp : p.1 = k
    · have hp' : p.1 ≠ k' := by rw [hp]; exact Ne.symm h
      simp only [setKey, if_pos hp]
      rw [lookupKey_cons, lookupKey_cons, if_neg (Ne.symm h), if_neg hp']
    · simp only [setKey, if_neg hp]
      by_cases hq : p.1 = k'
      · rw [lookupKey_cons, lookupKey_cons, if_pos hq, if_pos hq]
      · rw [lookupKey_cons, lookupKey_cons, if_neg hq, if_neg hq, ih]

theorem mem_setKey (m : ChoiceMap) (k : String) (v : Option Choice)
    (p : String × Option Choice) (h : p ∈ setKey m k v) : p ∈ m ∨ p = (k, v) := by
  induction m with
  | nil =>
    simp only [setKey] at h
    exact Or.inr (by simpa using h)
  | cons q t ih =>
    by_cases hq : q.1 = k
    · simp only [setKey, if_pos hq] at h
      rcases List.mem_cons.mp h with h' | h'
      · exact Or.inr h'
      · exact Or.inl (List.mem_cons_of_mem _ h')
    · simp only [setKey, if_neg hq] at h
      rcases List.mem_cons.mp h with h' | h'
      · exact Or.inl (h' ▸ List.mem_cons_self _ _)
      · rcases ih h' with h'' | h''
        · exact Or.inl (List.mem_cons_of_mem _ h'')
        · exact Or.inr h''

theorem lookupKey_foldl_initStep_untouched (opts : List ProductOption)
    (acc : ChoiceMap) (n : String)
    (h : n ∉ opts.filterMap ProductOption.name) :
    lookupKey (opts.foldl initStep acc) n = lookupKey acc n := by
  induction opts generalizing acc with
  | nil => rfl
  | cons o t ih =>
    rw [List.foldl_cons]
    cases ho : o.name with
    | none =>
      have ht : n ∉ t.filterMap ProductOption.name := by
        simpa [List.filterMap_cons, ho] using h
      rw [ih _ ht]
      simp [initStep, ho]
    | some m =>
      have h' : ¬(n = m ∨ n ∈ t.filterMap ProductOption.name) := by
        simpa [List.filterMap_cons, ho] using h
      push_neg at h'
      rw [ih _ h'.2]
      simp only [initStep, ho]
      by_cases hm : m = ""
      · rw [if_pos hm]
      · rw [if_neg hm]
        exact lookupKey_setKey_other _ _ _ _ h'.1

theorem foldl_initStep_snd_prop (P : Option Choice → Prop)
    (opts : List ProductOption) (acc : ChoiceMap)
    (hacc : ∀ p ∈ acc, P p.2)
    (hopts : ∀ o ∈ opts, ∀ n, o.name = some n →
      P (if (o.choices.getD []).length = 1
         then (o.choices.getD []).head? else none)) :
    ∀ p ∈ opts.foldl initStep acc, P p.2 := by
  induction opts generalizing acc with
  | nil => exact hacc
  | cons o t ih =>
    rw [List.foldl_cons]
    refine ih _ ?_ (fun o' ho' n hn =>
      hopts o' (List.mem_cons_of_mem _ ho') n hn)
    intro p hp
    cases ho : o.name with
    | none =>
      simp only [initStep, ho] at hp
      exact hacc p hp
    | some m =>
      simp only [initStep, ho] at hp
      by_cases hm : m = ""
      · rw [if_pos hm] at hp
        exact hacc p hp
      · rw [if_neg hm] at hp
        rcases mem_setKey _ _ _ _ hp with h' | h'
        · exact hacc p h'
        · rw [h']
          exact hopts o (List.mem_cons_self _ _) m ho

/-- C2: the claim says every Gateway operation returns a tagged result and
never throws across the boundary.  This fails for `getFeaturedProducts` (see
the counterexample); the amended claim, proved here, is that every other
Gateway operation of `src/lib/ecom/api.ts` returns a tagged result
(`Except.ok`) for every platform outcome, including platform call
failures. -/
theorem gateway_never_throws_outside_featured :
    (∀ p, ∃ r, getProducts p = Except.ok r) ∧
    (∀ c q slug, ∃ r, getProductsByCategory c q slug = Except.ok r) ∧
    (∀ p, ∃ r, getPromotedProducts p = Except.ok r) ∧
    (∀ p slug, ∃ r, getProductBySlug p slug = Except.ok r) ∧
    (∀ p slug, ∃ r, getCategoryBySlug p slug = Except.ok r) ∧
    (∀ p, ∃ r, getAllCategories p = Except.ok r) ∧
    (∀ p id, ∃ r, getOrder p id = Except.ok r) ∧
    (∀ p, ∃ r, getCart p = Except.ok r) ∧
    (∀ p, ∃ r, getCartTotals p = Except.ok r) ∧
    (∀ p id q, ∃ r, updateCartItemQuantity p id q = Except.ok r) ∧
    (∀ p id, ∃ r, removeItemFromCart p id = Except.ok r) ∧
    (∀ p id q opts, ∃ r, addToCart p id q opts = Except.ok r) ∧
    (∀ c rr, ∃ r, checkout c rr = Except.ok r) ∧
    (∀ c f, ∃ r, getProductPriceBounds c f = Except.ok r) := by
  refine ⟨fun p => ⟨_, rfl⟩, fun c q slug => ⟨_, rfl⟩, fun p => ⟨_, rfl⟩,
    fun p slug => ⟨_, rfl⟩, fun p slug => ⟨_, rfl⟩, fun p => ⟨_, rfl⟩,
    fun p id => ⟨_, rfl⟩, fun p => ⟨_, rfl⟩, fun p => ⟨_, rfl⟩,
    fun p id q => ⟨_, rfl⟩, fun p id => ⟨_, rfl⟩,
    fun p id q opts => ⟨_, rfl⟩, fun c rr => ?_, fun c f => ⟨_, rfl⟩⟩
  cases c with
  | error e => exact ⟨_, rfl⟩
  | ok cid => exact ⟨_, rfl⟩

/-- C2 counterexample: `getFeaturedProducts` throws across the interface
boundary — when the requested category lookup fails with a
non-`CategoryNotFound` code, the error object is thrown
(`Except.error`), not returned as a tagged failure result. -/
theorem getFeaturedProducts_throws_counterexample :
    getFeaturedProducts
      (fun _ => ApiResponse.failure
        ⟨EcomApiErrorCodes.GetCategoryFailure, "platform down"⟩)
      (fun _ _ => ApiResponse.failure
        ⟨EcomApiErrorCodes.GetProductsFailure, "x"⟩)
      "home" 4
      = Except.error ⟨EcomApiErrorCodes.GetCategoryFailure, "platform down"⟩ := by
  rfl

/-- C3: when the requested category lookup fails with `CategoryNotFound`,
`getFeaturedProducts` retries with the `all-products` slug, and when that
fallback lookup also fails, the error surfaced to the caller is the ORIGINAL
request's error, not the fallback's. -/
theorem getFeaturedProducts_surfaces_original_error
    (catBySlug : String → ApiResponse CollectionDetails)
    (prodsByCat : String → Nat → ApiResponse ProductsPage)
    (slug : String) (count : Nat) (e eFallback : EcomError)
    (h1 : catBySlug slug = ApiResponse.failure e)
    (h2 : e.code = EcomApiErrorCodes.CategoryNotFound)
    (h3 : catBySlug "all-products" = ApiResponse.failure eFallback) :
    getFeaturedProducts catBySlug prodsByCat slug count = Except.error e := by
  unfold getFeaturedProducts
  rw [h1]
  simp [h2, h3]

/-- C3 witness: concrete lookups for which the requested slug fails with
`CategoryNotFound` and the fallback fails with a different error; the
original error is surfaced. -/
theorem getFeaturedProducts_surfaces_original_error_witness :
    getFeaturedProducts
      (fun s => if s = "home"
        then ApiResponse.failure ⟨EcomApiErrorCodes.CategoryNotFound, "original"⟩
        else ApiResponse.failure ⟨EcomApiErrorCodes.GetCategoryFailure, "fallback"⟩)
      (fun _ _ => ApiResponse.failure ⟨EcomApiErrorCodes.GetProductsFailure, "x"⟩)
      "home" 4
      = Except.error ⟨EcomApiErrorCodes.CategoryNotFound, "original"⟩ :=
  getFeaturedProducts_surfaces_original_error _ _ "home" 4
    ⟨EcomApiErrorCodes.CategoryNotFound, "original"⟩
    ⟨EcomApiErrorCodes.GetCategoryFailure, "fallback"⟩
    (by rfl) (by rfl) (by rfl)

/-- C4: checkout is two-phase — a create-checkout rejection yields a
`CreateCheckoutFailure` result whatever the redirect phase would do; after a
successful creation, a redirect-session rejection (or an absent redirect
session) yields `CreateCheckoutRedirectSessionFailure`, never the
checkout-creation code. -/
theorem checkout_two_phase_codes :
    (∀ (m : String) (redirectRes : Except String (Option RedirectSession)),
        checkout (Except.error m) redirectRes =
          Except.ok (failureResponse EcomApiErrorCodes.CreateCheckoutFailure m)) ∧
    (∀ (checkoutId : Option String) (m : String),
        checkout (Except.ok checkoutId) (Except.error m) =
          Except.ok (failureResponse
            EcomApiErrorCodes.CreateCheckoutRedirectSessionFailure m)) ∧
    (∀ (checkoutId : Option String),
        checkout (Except.ok checkoutId) (Except.ok none) =
          Except.ok (failureResponse
            EcomApiErrorCodes.CreateCheckoutRedirectSessionFailure
            "Missing redirect session url")) :=
  ⟨fun _ _ => rfl, fun _ _ => rfl, fun _ => rfl⟩

/-- C5: for every update-quantity or remove mutation, the item's id is in the
busy set at the moment the Gateway call is issued, and after the mutation
settles — whatever interleaved updates happened and however it settled — the
id is absent from the busy set. -/
theorem busy_set_tracking :
    ∀ (prev : List String) (id : String) (during : List String → List String),
      id ∈ (busyLifecycle prev id during).1 ∧
      id ∉ (busyLifecycle prev id during).2 := by
  intro prev id during
  refine ⟨?_, ?_⟩
  · simp [busyLifecycle, markItemUpdating]
  · simp [busyLifecycle, unmarkItemUpdating, List.mem_filter]

/-- C6: whenever some option's selection entry is `undefined`, invoking
`handleAddToCart` issues no Gateway call (the request component is `none`)
and sets `addToCartAttempted` to `true`; the rejection is surfaced only
through that flag. -/
theorem handleAddToCart_incomplete_selection
    (computeOptions : Product → ChoiceMap → AddToCartOptions)
    (product : Product) (st : DetailsState) (k : String)
    (h : (k, (none : Option Choice)) ∈ st.selectedChoices) :
    (handleAddToCart computeOptions product st).2 = none ∧
    (handleAddToCart computeOptions product st).1.addToCartAttempted = true := by
  have hany : st.selectedChoices.any (fun p => p.2.isNone) = true := by
    rw [List.any_eq_true]
    exact ⟨(k, none), h, rfl⟩
  exact ⟨by simp [handleAddToCart, hany], by simp [handleAddToCart, hany]⟩

/-- C6 witness: a selection state with the sole option `Size` unselected. -/
theorem handleAddToCart_incomplete_selection_witness :
    (handleAddToCart (fun _ _ => AddToCartOptions.choices [])
        ⟨"P", none, none, none⟩ ⟨[("Size", none)], 1, false⟩).2 = none ∧
    (handleAddToCart (fun _ _ => AddToCartOptions.choices [])
        ⟨"P", none, none, none⟩
        ⟨[("Size", none)], 1, false⟩).1.addToCartAttempted = true :=
  handleAddToCart_incomplete_selection _ _ _ "Size" (List.mem_cons_self _ _)

/-- C7: for every option name, new choice and prior state,
`handleOptionChange` resets the quantity to exactly 1, sets that option's
entry to the new choice, and leaves every other option's entry unchanged. -/
theorem handleOptionChange_spec (st : DetailsState) (optionName : String)
    (newChoice : Choice) :
    (handleOptionChange st optionName newChoice).quantity = 1 ∧
    lookupKey (handleOptionChange st optionName newChoice).selectedChoices
      optionName = some (some newChoice) ∧
    ∀ k, k ≠ optionName →
      lookupKey (handleOptionChange st optionName newChoice).selectedChoices k
        = lookupKey st.selectedChoices k := by
  refine ⟨rfl, ?_, ?_⟩
  · exact lookupKey_setKey_self _ _ _
  · intro k hk
    exact lookupKey_setKey_other _ _ _ _ hk

/-- C7 witness: changing `Size` to `M` from quantity 5 resets the quantity to
1, selects `M` for `Size`, and leaves `Color` untouched. -/
theorem handleOptionChange_spec_witness :
    (handleOptionChange
        ⟨[("Size", some ⟨"S"⟩), ("Color", some ⟨"Red"⟩)], 5, false⟩
        "Size" ⟨"M"⟩).quantity = 1 ∧
    lookupKey (handleOptionChange
        ⟨[("Size", some ⟨"S"⟩), ("Color", some ⟨"Red"⟩)], 5, false⟩
        "Size" ⟨"M"⟩).selectedChoices "Size" = some (some ⟨"M"⟩) ∧
    lookupKey (handleOptionChange
        ⟨[("Size", some ⟨"S"⟩), ("Color", some ⟨"Red"⟩)], 5, false⟩
        "Size" ⟨"M"⟩).selectedChoices "Color"
      = lookupKey [("Size", some ⟨"S"⟩), ("Color", some ⟨"Red"⟩)] "Color" :=
  ⟨(handleOptionChange_spec _ "Size" ⟨"M"⟩).1,
   (handleOptionChange_spec _ "Size" ⟨"M"⟩).2.1,
   (handleOptionChange_spec _ "Size" ⟨"M"⟩).2.2 "Color" (by decide)⟩

/-- C8 (amended): with pairwise-distinct option names, the initial selection
state maps the non-empty name of every option that has exactly one choice to
that single choice, and the non-empty name of every option with more than
one choice to an `undefined` (unselected) entry — an option whose name is
absent or the empty string is skipped by the JS-falsy guard
`if (option.name)` and gets no entry; and when every option has exactly one
choice, no entry of the initial selection state is `undefined`, so the
initial selection is fully resolved without user interaction. -/
theorem getInitialSelectedChoices_spec (product : Product)
    (hnodup : (optionNames product).Nodup) :
    (∀ o ∈ product.productOptions.getD [], ∀ n cs,
        o.name = some n → n ≠ "" → o.choices = some cs →
        (cs.length = 1 →
          lookupKey (getInitialSelectedChoices product) n = some cs.head?) ∧
        (1 < cs.length →
          lookupKey (getInitialSelectedChoices product) n = some none)) ∧
    ((∀ o ∈ product.productOptions.getD [], ∃ c, o.choices = some [c]) →
      ∀ p ∈ getInitialSelectedChoices product, p.2 ≠ none) := by
  constructor
  · intro o ho n cs hn hne hcs
    obtain ⟨s, t, hst⟩ := List.append_of_mem ho
    have hlook : lookupKey (getInitialSelectedChoices product) n =
        some (if (o.choices.getD []).length = 1
              then (o.choices.getD []).head? else none) := by
      have hnt : n ∉ t.filterMap ProductOption.name := by
        have : (optionNames product).Nodup := hnodup
        rw [optionNames, hst, List.filterMap_append, List.filterMap_cons, hn]
          at this
        have := this.of_append_right
        exact (List.nodup_cons.mp this).1
      rw [getInitialSelectedChoices, hst, List.foldl_append, List.foldl_cons,
        lookupKey_foldl_initStep_untouched _ _ _ hnt]
      simp only [initStep, hn]
      rw [if_neg hne]
      exact lookupKey_setKey_self _ _ _
    rw [hcs] at hlook
    simp only [Option.getD_some] at hlook
    constructor
    · intro h1
      rw [hlook, if_pos h1]
    · intro h1
      rw [hlook, if_neg (by omega)]
  · intro hall p hp
    refine foldl_initStep_snd_prop (fun v => v ≠ none) _ _ (by simp) ?_ p hp
    intro o ho n _hn
    obtain ⟨c, hc⟩ := hall o ho
    simp [hc]

/-- C8 witness: a product with two single-choice options; both are
auto-selected at creation. -/
theorem getInitialSelectedChoices_spec_witness :
    lookupKey (getInitialSelectedChoices
        ⟨"P", some [⟨some "Size", some [⟨"S"⟩]⟩, ⟨some "Color", some [⟨"Red"⟩]⟩],
         some true, none⟩) "Size" = some (some ⟨"S"⟩) :=
  ((getInitialSelectedChoices_spec _ (by decide)).1
    ⟨some "Size", some [⟨"S"⟩]⟩ (by decide) "Size" [⟨"S"⟩] rfl (by decide)
    rfl).1 rfl

/-- C8 counterexample: a product whose single option is named `""` and has
exactly one choice.  The source guard `if (option.name)` is JS truthiness,
so the empty-string name is skipped: the initial selection state is empty
and that option's name has no entry at all, against the claim that every
option name is mapped to its single choice. -/
theorem getInitialSelectedChoices_empty_name_counterexample :
    getInitialSelectedChoices
        ⟨"P", some [⟨some "", some [⟨"S"⟩]⟩], none, none⟩ = [] ∧
    lookupKey (getInitialSelectedChoices
        ⟨"P", some [⟨some "", some [⟨"S"⟩]⟩], none, none⟩) "" = none :=
  ⟨rfl, rfl⟩

/-- C9: after the category resolves, `getProductPriceBounds` issues the
ascending and descending price queries with limit 1 and returns the first
item's price of each, substituting 0 for a missing item or price; on the
spec's scenario — a category with products priced 10, 25 and 7 under the
platform's price-ordered query — it returns lowest 7 and highest 25. -/
theorem getProductPriceBounds_spec :
    (∀ (category : CollectionDetails) (find : SortDir → Nat → List Product),
        getProductPriceBounds (Except.ok (some category)) find =
          Except.ok (successResponse
            { lowest := (((find SortDir.ascending 1).head?.bind
                Product.priceData).bind PriceData.price).getD 0,
              highest := (((find SortDir.descending 1).head?.bind
                Product.priceData).bind PriceData.price).getD 0 })) ∧
    getProductPriceBounds (Except.ok (some ⟨"cat"⟩))
        (platformPriceQuery
          [⟨"p1", none, none, some ⟨some 10⟩⟩,
           ⟨"p2", none, none, some ⟨some 25⟩⟩,
           ⟨"p3", none, none, some ⟨some 7⟩⟩]) =
      Except.ok (successResponse { lowest := 7, highest := 25 }) :=
  ⟨fun _ _ => rfl, by rfl⟩

/-- C10: `checkout` returns a success only when the redirect session carries a
non-empty `fullUrl`, and the success body's `checkoutUrl` is exactly that
`fullUrl`; a successful redirect-session call whose response carries no URL
(or an empty one) yields a `CreateCheckoutRedirectSessionFailure` result. -/
theorem checkout_success_requires_fullUrl :
    (∀ (createRes : Except String (Option String))
       (redirectRes : Except String (Option RedirectSession))
       (body : CheckoutResult),
        checkout createRes redirectRes = Except.ok (ApiResponse.success body) →
        body.checkoutUrl ≠ "" ∧
        ∃ redirectSession, redirectRes = Except.ok redirectSession ∧
          optFullUrl redirectSession = some body.checkoutUrl) ∧
    (∀ (checkoutId : Option String) (redirectSession : Option RedirectSession),
        optFullUrl redirectSession = none ∨ optFullUrl redirectSession = some "" →
        checkout (Except.ok checkoutId) (Except.ok redirectSession) =
          Except.ok (failureResponse
            EcomApiErrorCodes.CreateCheckoutRedirectSessionFailure
            "Missing redirect session url")) := by
  constructor
  · intro createRes redirectRes body h
    cases createRes with
    | error e => simp [checkout, failureResponse] at h
    | ok cid =>
      cases redirectRes with
      | error e => simp [checkout, failureResponse] at h
      | ok rs =>
        simp only [checkout] at h
        cases hurl : optFullUrl rs with
        | none => rw [hurl] at h; simp [failureResponse] at h
        | some url =>
          rw [hurl] at h
          by_cases he : url = ""
          · simp [he, failureResponse] at h
          · simp only [if_neg he, successResponse, Except.ok.injEq,
              ApiResponse.success.injEq] at h
            refine ⟨?_, rs, rfl, ?_⟩
            · rw [← h]
              exact he
            · rw [← h]
              exact hurl
  · intro cid rs h
    rcases h with h | h
    · simp [checkout, h]
    · simp [checkout, h]

/-- C10 witness: a concrete successful checkout whose URL is the redirect
session's `fullUrl`, and a successful redirect-session call carrying no URL
that yields the redirect-session failure code. -/
theorem checkout_success_requires_fullUrl_witness :
    ((⟨"https://pay"⟩ : CheckoutResult).checkoutUrl ≠ "" ∧
      ∃ redirectSession,
        (Except.ok (some ⟨some "https://pay"⟩) :
            Except String (Option RedirectSession)) = Except.ok redirectSession ∧
        optFullUrl redirectSession
          = some (⟨"https://pay"⟩ : CheckoutResult).checkoutUrl) ∧
    checkout (Except.ok (some "chk")) (Except.ok (some ⟨none⟩)) =
      Except.ok (failureResponse
        EcomApiErrorCodes.CreateCheckoutRedirectSessionFailure
        "Missing redirect session url") :=
  ⟨checkout_success_requires_fullUrl.1 (Except.ok (some "chk"))
      (Except.ok (some ⟨some "https://pay"⟩)) ⟨"https://pay"⟩ (by rfl),
   checkout_success_requires_fullUrl.2 (some "chk") (some ⟨none⟩)
      (Or.inl rfl)⟩

/-- C1: when the cached cart contains a line item matching the candidate add
(per the `findItemIdInCart` rule), the coordinator issues an update-quantity
call with the existing quantity plus the requested quantity and no insert;
otherwise it issues exactly one insert with the requested quantity.
Consequently — with the server applying the issued call — adding the same
(catalog item, option combination) twice yields one line item with the
combined quantity, and adding a different option combination of the same
product yields a second, distinct line item. -/
theorem useAddToCart_spec :
    (∀ (c : Cart) (id : String) (q : Nat) (opts : Option AddToCartOptions)
       (item : LineItem),
        findItemIdInCart c id opts = some item →
        addToCartMutation (some c) id q opts =
          CartAction.updateQuantity item.lineItemId (item.quantity.getD 0 + q)) ∧
    (∀ (c : Cart) (id : String) (q : Nat) (opts : Option AddToCartOptions),
        findItemIdInCart c id opts = none →
        addToCartMutation (some c) id q opts = CartAction.insert id q opts) ∧
    ((addToCartFlow (addToCartFlow ⟨[]⟩ "li-1" "P" 1
          (some (AddToCartOptions.choices [("Size", "S")])))
        "li-2" "P" 2
        (some (AddToCartOptions.choices [("Size", "S")]))).lineItems.map
        (fun li => li.quantity) = [some 3] ∧
      (addToCartFlow (addToCartFlow (addToCartFlow ⟨[]⟩ "li-1" "P" 1
          (some (AddToCartOptions.choices [("Size", "S")])))
        "li-2" "P" 2 (some (AddToCartOptions.choices [("Size", "S")])))
        "li-3" "P" 1
        (some (AddToCartOptions.choices [("Size", "M")]))).lineItems.length
        = 2) := by
  refine ⟨?_, ?_, by decide⟩
  · intro c id q opts item h
    simp [addToCartMutation, h]
  · intro c id q opts h
    simp [addToCartMutation, h]

/-- C1 witness: a cached cart holding the Size-S line item with quantity 1;
adding two more of the same combination issues an update to quantity 3, and
adding to the empty cart issues an insert. -/
theorem useAddToCart_spec_witness :
    addToCartMutation (some ⟨[⟨some "li-1", some 1, some "P",
        some (AddToCartOptions.choices [("Size", "S")])⟩]⟩) "P" 2
        (some (AddToCartOptions.choices [("Size", "S")])) =
      CartAction.updateQuantity (some "li-1") 3 ∧
    addToCartMutation (some ⟨[]⟩) "P" 1
        (some (AddToCartOptions.choices [("Size", "S")])) =
      CartAction.insert "P" 1 (some (AddToCartOptions.choices [("Size", "S")])) :=
  ⟨useAddToCart_spec.1 _ "P" 2 _
      ⟨some "li-1", some 1, some "P",
        some (AddToCartOptions.choices [("Size", "S")])⟩ (by decide),
   useAddToCart_spec.2.1 _ "P" 1 _ (by decide)⟩

end Ecom
